import Mathlib

/-!
Verification development for the Anthropic Claude adapter
(`plugins/anthropic/src/claude.ts`): a shallow embedding in Lean 4 of its
message / content-block / request-body conversion functions, together with
theorems about their behaviour.

Modelling conventions:
* JavaScript runtime values that flow through the untyped parts of the code
  (tool outputs, tool inputs, schemas) are modelled by `JsonValue`.
  Numbers are modelled as `Int` (every value the specification exercises is
  integral; no floating-point behaviour is relied upon by any statement).
* `undefined`/missing fields are modelled with `Option` (`none` = absent).
* Functions that `throw` are modelled in `Except String`.
* JS truthiness is modelled explicitly where the source relies on it:
  an empty string is falsy, `0` is falsy, `false` is falsy, objects and
  arrays are always truthy.
-/

namespace Claude

/-- A JSON-like JavaScript runtime value (tool outputs, tool inputs, schemas). -/
inductive JsonValue where
  | jnull : JsonValue
  | jbool : Bool → JsonValue
  | jnum : Int → JsonValue
  | jstr : String → JsonValue
  | jarr : List JsonValue → JsonValue
  | jobj : List (String × JsonValue) → JsonValue

/-- First-occurrence field lookup in a JS object (JS objects have unique keys;
insertion order is preserved, as in the model). -/
def lookupField (fields : List (String × JsonValue)) (k : String) : Option JsonValue :=
  match fields with
  | [] => none
  | (k2, v) :: rest => if k2 = k then some v else lookupField rest k

def hexDigit (n : Nat) : Char :=
  if n < 10 then Char.ofNat (48 + n) else Char.ofNat (87 + n)

def hex4 (n : Nat) : String :=
  String.mk [hexDigit (n / 4096 % 16), hexDigit (n / 256 % 16),
             hexDigit (n / 16 % 16), hexDigit (n % 16)]

/-- Escaping of one character inside a JSON string literal, as performed by
`JSON.stringify`. -/
def jsonEscapeChar (c : Char) : String :=
  if c = '"' then "\\\""
  else if c = '\\' then "\\\\"
  else if c = '\x08' then "\\b"
  else if c = '\x09' then "\\t"
  else if c = '\x0a' then "\\n"
  else if c = '\x0c' then "\\f"
  else if c = '\x0d' then "\\r"
  else if c.toNat < 32 then "\\u" ++ hex4 c.toNat
  else String.singleton c

def jsonEscape (s : String) : String :=
  String.join (s.toList.map jsonEscapeChar)

mutual
/-- `JSON.stringify` on the modelled JSON values. -/
def stringifyJson : JsonValue → String
  | .jnull => "null"
  | .jbool true => "true"
  | .jbool false => "false"
  | .jnum n => toString n
  | .jstr s => "\"" ++ jsonEscape s ++ "\""
  | .jarr xs => "[" ++ String.intercalate "," (stringifyJsonList xs) ++ "]"
  | .jobj fs => "\x7b" ++ String.intercalate "," (stringifyJsonFields fs) ++ "\x7d"

def stringifyJsonList : List JsonValue → List String
  | [] => []
  | x :: xs => stringifyJson x :: stringifyJsonList xs

def stringifyJsonFields : List (String × JsonValue) → List String
  | [] => []
  | (k, v) :: fs =>
    ("\"" ++ jsonEscape k ++ "\":" ++ stringifyJson v) :: stringifyJsonFields fs
end

/-! ## Canonical (Genkit) data model -/

/-- A Genkit media payload: `{url: string, contentType?: string}`. -/
structure MediaData where
  url : String
  contentType : Option String

/-- A Genkit tool request: `{ref?: string, name: string, input?: unknown}`. -/
structure ToolRequestData where
  ref : Option String
  name : String
  input : JsonValue

/-- A Genkit tool response: `{ref?: string, name: string, output?: unknown}`. -/
structure ToolResponseData where
  ref : Option String
  name : String
  output : JsonValue

/-- A Genkit message `Part`: at most one of the four tags is meant to be
populated (`none` models an absent / `undefined` field). -/
structure GPart where
  text : Option String
  media : Option MediaData
  toolRequest : Option ToolRequestData
  toolResponse : Option ToolResponseData

/-- A Genkit `MessageData`: a role string and a list of parts. -/
structure MessageData where
  role : String
  content : List GPart

/-! ## Provider-side (Anthropic) data model -/

inductive AnthropicRole where
  | user : AnthropicRole
  | assistant : AnthropicRole
deriving DecidableEq

/-- An outbound Anthropic content block
(`TextBlock | ImageBlockParam | ToolUseBlockParam | ToolResultBlockParam`).
The `tool_use` id is `Option String` because the source reads
`part.toolRequest.ref!`, a compile-time-only non-null assertion: at runtime a
missing ref flows through as `undefined`, with no check.  The image
`media_type` is a `JsonValue` because the source copies an untyped
`contentType` field into it. -/
inductive ContentBlockParam where
  | textBlock : String → ContentBlockParam
  | imageBlock : (data : String) → (media_type : JsonValue) → ContentBlockParam
  | toolUseBlock : (id : Option String) → (name : String) → (input : JsonValue) → ContentBlockParam
  | toolResultBlock : (tool_use_id : Option String) → (content : List ContentBlockParam) → ContentBlockParam

/-- The `type` discriminant string carried by each block on the wire. -/
def blockTypeOf : ContentBlockParam → String
  | .textBlock _ => "text"
  | .imageBlock _ _ => "image"
  | .toolUseBlock _ _ _ => "tool_use"
  | .toolResultBlock _ _ => "tool_result"

/-- An Anthropic `MessageParam`. -/
structure MessageParam where
  role : AnthropicRole
  content : List ContentBlockParam

/-! ## Role mapping -/

/-- `toAnthropicRole` from the source: a switch on the role string; the
`toolMessageType` hint is the `type` field of the first tool block found in
the converted content (`tool_use`/`tool_result`), or absent. -/
def toAnthropicRole (role : String) (toolMessageType : Option String) :
    Except String AnthropicRole :=
  if role = "user" then .ok .user
  else if role = "model" then .ok .assistant
  else if role = "tool" then
    .ok (if toolMessageType = some "tool_use" then .assistant else .user)
  else .error ("role " ++ role ++ " does not map to an Anthropic role.")

/-! ## Base64 data-URL extraction -/

/-- Characters not matched by an unflagged JavaScript regex `.`. -/
def isJsLineTerminator (c : Char) : Bool :=
  c = '\x0a' || c = '\x0d' || c = '\u2028' || c = '\u2029'

def listStartsWith : List Char → List Char → Bool
  | [], _ => true
  | _ :: _, [] => false
  | p :: ps, c :: cs => p == c && listStartsWith ps cs

/-- `extractDataFromBase64Url`: `url.match(/^data:([^;]+);base64,(.+)$/)`.
`[^;]+` is the (non-empty) maximal run of non-semicolon characters after
`data:`; then the literal `;base64,`; then `(.+)$` is the non-empty remainder,
which must contain no line terminators since `.` does not match them.
Returns `(contentType, data)` on a match. -/
def extractDataFromBase64Url (url : String) : Option (String × String) :=
  let cs := url.toList
  if listStartsWith ("data:".toList) cs then
    let rest := cs.drop 5
    let mime := rest.takeWhile (fun c => c ≠ ';')
    let after := rest.drop mime.length
    if mime.isEmpty then none
    else if listStartsWith (";base64,".toList) after then
      let data := after.drop 8
      if data.isEmpty then none
      else if data.all (fun c => !(isJsLineTerminator c)) then
        some (String.mk mime, String.mk data)
      else none
    else none
  else none

/-! ## Tool-response sub-converter -/

/-- `isMediaObject`: `typeof o === 'object' && o !== null && 'url' in o &&
typeof o.url === 'string'`.  Arrays are objects but carry no `url` property;
`null` is excluded explicitly. -/
def jsIsMediaObject : JsonValue → Bool
  | .jobj fields =>
    match lookupField fields "url" with
    | some (.jstr _) => true
    | _ => false
  | _ => false

/-- The `url` property of a media object (only meaningful when
`jsIsMediaObject` holds). -/
def jsMediaUrl : JsonValue → String
  | .jobj fields =>
    match lookupField fields "url" with
    | some (.jstr s) => s
    | _ => ""
  | _ => ""

def jsTypeofString : JsonValue → Bool
  | .jstr _ => true
  | _ => false

def jsAsString : JsonValue → String
  | .jstr s => s
  | _ => ""

/-- `(output as Media)?.contentType ?? _`: the left operand of `??` is taken
when it is neither `null` nor `undefined`.  A non-object output (e.g. a
string) has no `contentType` property, hence `undefined`. -/
def jsMediaContentTypeNonNull : JsonValue → Option JsonValue
  | .jobj fields =>
    match lookupField fields "contentType" with
    | some .jnull => none
    | some v => some v
    | none => none
  | _ => none

/-- The `base64Data` local of `toAnthropicToolResponseContent`: extraction is
attempted from the media object's `url` when the output is a media object,
else from the output itself when it is a string. -/
def toolResponseBase64Data (output : JsonValue) : Option (String × String) :=
  if jsIsMediaObject output then extractDataFromBase64Url (jsMediaUrl output)
  else if jsTypeofString output then extractDataFromBase64Url (jsAsString output)
  else none

/-- `toAnthropicToolResponseContent` from the source: errors when the part has
no `toolResponse`; otherwise emits an image block when base64 data was
extracted (media-type: the media object's non-null `contentType` if any, else
the regex-captured mime type), and a text block otherwise (the raw string when
the output is a string, else its `JSON.stringify`). -/
def toAnthropicToolResponseContent (part : GPart) : Except String ContentBlockParam :=
  match part.toolResponse with
  | none => .error "Invalid genkit part provided to toAnthropicToolResponseContent."
  | some tresp =>
    match toolResponseBase64Data tresp.output with
    | some cd =>
      .ok (.imageBlock cd.2 ((jsMediaContentTypeNonNull tresp.output).getD (.jstr cd.1)))
    | none =>
      .ok (.textBlock
        (if jsTypeofString tresp.output then jsAsString tresp.output
         else stringifyJson tresp.output))

/-! ## Outbound part conversion -/

/-- The truthiness test `if (part.text)`: the text field is present and
non-empty. -/
def partTextTruthy (part : GPart) : Option String :=
  match part.text with
  | some s => if s = "" then none else some s
  | none => none

/-- `toAnthropicMessageContent` from the source: sequential truthiness tests
on `text`, `media`, `toolRequest`, `toolResponse`; errors on a media part
whose url is not a matching base64 data URL, and when no tag is truthy. -/
def toAnthropicMessageContent (part : GPart) : Except String ContentBlockParam :=
  match partTextTruthy part with
  | some s => .ok (.textBlock s)
  | none =>
    match part.media with
    | some m =>
      match extractDataFromBase64Url m.url with
      | some cd => .ok (.imageBlock cd.2 (.jstr (m.contentType.getD cd.1)))
      | none => .error "Invalid genkit part media provided to toAnthropicMessageContent."
    | none =>
      match part.toolRequest with
      | some treq => .ok (.toolUseBlock treq.ref treq.name treq.input)
      | none =>
        match part.toolResponse with
        | some tresp =>
          match toAnthropicToolResponseContent part with
          | .ok b => .ok (.toolResultBlock tresp.ref [b])
          | .error e => .error e
        | none =>
          .error "Unsupported genkit part fields encountered for current message role."

/-! ## Inbound content-block conversion -/

/-- `fromAnthropicContentBlock` from the source:
`block.type === 'tool_use' ? {toolRequest: {ref: id, name, input}} : {text: block.text}`.
The source is duck-typed: for a block that is neither `tool_use` nor `text`
(image / tool_result), `block.text` is `undefined`, so the produced part has
an absent text field. -/
def fromAnthropicContentBlock (contentBlock : ContentBlockParam) : GPart :=
  match contentBlock with
  | .toolUseBlock id name input => ⟨none, none, some ⟨id, name, input⟩, none⟩
  | .textBlock t => ⟨some t, none, none, none⟩
  | .imageBlock _ _ => ⟨none, none, none, none⟩
  | .toolResultBlock _ _ => ⟨none, none, none, none⟩

/-! ## Message sequence conversion -/

/-- `Array.prototype.map` with a throwing callback: the first error aborts. -/
def mapExcept (f : α → Except ε β) : List α → Except ε (List β)
  | [] => .ok []
  | a :: l =>
    match f a with
    | .error e => .error e
    | .ok b =>
      match mapExcept f l with
      | .error e => .error e
      | .ok bs => .ok (b :: bs)

/-- `content.find(c => c.type === 'tool_use' || c.type === 'tool_result')?.type`. -/
def findToolMessageType (content : List ContentBlockParam) : Option String :=
  (content.find? (fun c => blockTypeOf c == "tool_use" || blockTypeOf c == "tool_result")).map
    blockTypeOf

/-- One iteration of the `toAnthropicMessages` loop: convert the parts, find
the first tool block's type as the role hint, map the role. -/
def convertMessage (message : MessageData) : Except String MessageParam :=
  match mapExcept toAnthropicMessageContent message.content with
  | .error e => .error e
  | .ok content =>
    match toAnthropicRole message.role (findToolMessageType content) with
    | .error e => .error e
    | .ok role => .ok ⟨role, content⟩

/-- `messages[0].content?.[0]?.text`. -/
def systemExtract (m0 : MessageData) : Option String :=
  (m0.content.head?).bind (fun p => p.text)

/-- String truthiness of an optional string (`undefined` and `''` are falsy). -/
def strTruthy : Option String → Bool
  | some s => s != ""
  | none => false

/-- `toAnthropicMessages` from the source.
`system` is the first message's first part's text when the first message's
role is `system`; the first message is excluded from iteration only when that
`system` value is truthy (present and non-empty). -/
def toAnthropicMessages (messages : List MessageData) :
    Except String (Option String × List MessageParam) :=
  let system : Option String :=
    match messages.head? with
    | some m0 => if m0.role = "system" then systemExtract m0 else none
    | none => none
  let messagesToIterate := if strTruthy system then messages.drop 1 else messages
  match mapExcept convertMessage messagesToIterate with
  | .error e => .error e
  | .ok msgs => .ok (system, msgs)

/-! ## Tools, config, request body -/

/-- A Genkit `ToolDefinition` (the input schema is carried opaquely). -/
structure ToolDefinition where
  name : String
  description : String
  inputSchema : JsonValue

/-- An Anthropic `Tool`. -/
structure ToolParam where
  name : String
  description : String
  input_schema : JsonValue

/-- `toAnthropicTool` from the source: a verbatim field mapping. -/
def toAnthropicTool (tool : ToolDefinition) : ToolParam :=
  ⟨tool.name, tool.description, tool.inputSchema⟩

/-- The `tool_choice` extension of `AnthropicConfigSchema`. -/
inductive ToolChoice where
  | auto : ToolChoice
  | any : ToolChoice
  | tool : String → ToolChoice

/-- The `metadata` extension of `AnthropicConfigSchema`. -/
structure RequestMetadata where
  user_id : Option String

/-- The generation config (`GenerationCommonConfigSchema` plus the Anthropic
extensions).  Numeric fields are modelled as `Int` (`topK`, `maxOutputTokens`)
and `Rat` (`topP`, `temperature`); only zero-vs-nonzero matters to the
stripping logic. -/
structure GenerationConfig where
  version : Option String
  temperature : Option Rat
  maxOutputTokens : Option Int
  topK : Option Int
  topP : Option Rat
  stopSequences : Option (List String)
  tool_choice : Option ToolChoice
  metadata : Option RequestMetadata

/-- The request's `output` member (`{format?: string}`). -/
structure OutputConfig where
  format : Option String

/-- A Genkit `GenerateRequest` (the fields the body builder reads). -/
structure GenerateRequest where
  messages : List MessageData
  tools : Option (List ToolDefinition)
  output : Option OutputConfig
  config : Option GenerationConfig

/-- An Anthropic `MessageCreateParams` as sent on the wire: `none` models an
absent key (the builder deletes falsy / empty-list values before returning). -/
structure MessageCreateParams where
  system : Option String
  messages : Option (List MessageParam)
  tools : Option (List ToolParam)
  max_tokens : Option Int
  model : Option String
  top_k : Option Int
  top_p : Option Rat
  temperature : Option Rat
  stop_sequences : Option (List String)
  metadata : Option RequestMetadata
  tool_choice : Option ToolChoice
  stream : Option Bool

/-- `SUPPORTED_CLAUDE_MODELS`, reduced to the data the body builder reads:
the `version` pinned by each registry entry. -/
def SUPPORTED_CLAUDE_MODELS : List (String × String) :=
  [("claude-3-5-sonnet", "claude-3-5-sonnet-20240620"),
   ("claude-3-opus", "claude-3-opus-20240229"),
   ("claude-3-sonnet", "claude-3-sonnet-20240229"),
   ("claude-3-haiku", "claude-3-haiku-20240307")]

def lookupModelVersion (name : String) : Option String :=
  (SUPPORTED_CLAUDE_MODELS.find? (fun p => p.1 == name)).map (fun p => p.2)

/-- Deletion of a falsy string value (`''` is falsy). -/
def stripOptStr : Option String → Option String
  | some s => if s = "" then none else some s
  | none => none

/-- Deletion of a falsy number value (`0` is falsy). -/
def stripOptInt : Option Int → Option Int
  | some n => if n = 0 then none else some n
  | none => none

def stripOptRat : Option Rat → Option Rat
  | some q => if q = 0 then none else some q
  | none => none

/-- Deletion of a falsy boolean value (`false` is falsy). -/
def stripOptBool : Option Bool → Option Bool
  | some b => if b then some true else none
  | none => none

/-- Arrays are truthy, but the builder also deletes empty arrays. -/
def stripOptList : Option (List α) → Option (List α)
  | some xs => if xs.isEmpty then none else some xs
  | none => none

/-- The `for key in body / delete` loop: every falsy or empty-list value is
removed.  `metadata` and `tool_choice` are objects, hence always truthy and
never arrays, so they survive whenever present. -/
def stripBody (b : MessageCreateParams) : MessageCreateParams where
  system := stripOptStr b.system
  messages := stripOptList b.messages
  tools := stripOptList b.tools
  max_tokens := stripOptInt b.max_tokens
  model := stripOptStr b.model
  top_k := stripOptInt b.top_k
  top_p := stripOptRat b.top_p
  temperature := stripOptRat b.temperature
  stop_sequences := stripOptList b.stop_sequences
  metadata := b.metadata
  tool_choice := b.tool_choice
  stream := stripOptBool b.stream

/-- `request.output?.format && request.output.format !== 'text'` (truthiness:
an empty format string is falsy, so it does not trigger the error). -/
def outputFormatUnsupported (request : GenerateRequest) : Bool :=
  match request.output with
  | some o =>
    match o.format with
    | some f => f != "" && f != "text"
    | none => false
  | none => false

/-- `toAnthropicRequestBody` from the source.  Every registry entry pins a
version, so `model.version ?? modelName` never falls through to `modelName`;
the registry model carries that version directly. -/
def toAnthropicRequestBody (modelName : String) (request : GenerateRequest)
    (stream : Option Bool) : Except String MessageCreateParams :=
  match lookupModelVersion modelName with
  | none => .error ("Unsupported model: " ++ modelName)
  | some modelVersion =>
    match toAnthropicMessages request.messages with
    | .error e => .error e
    | .ok sysMsgs =>
      if outputFormatUnsupported request then
        .error "Only text output format is supported for Claude models currently"
      else
        .ok (stripBody
          { system := sysMsgs.1
            messages := some sysMsgs.2
            tools := request.tools.map (fun ts => ts.map toAnthropicTool)
            max_tokens := some ((request.config.bind (fun c => c.maxOutputTokens)).getD 4096)
            model := some ((request.config.bind (fun c => c.version)).getD modelVersion)
            top_k := request.config.bind (fun c => c.topK)
            top_p := request.config.bind (fun c => c.topP)
            temperature := request.config.bind (fun c => c.temperature)
            stop_sequences := request.config.bind (fun c => c.stopSequences)
            metadata := request.config.bind (fun c => c.metadata)
            tool_choice := request.config.bind (fun c => c.tool_choice)
            stream := stream })

/-! ## Claim-side definitions

These definitions state properties of the embedded code; `specToolResponseBlock`
is written from the specification's wording, to be compared with the embedded
`toAnthropicToolResponseContent`. -/

/-- Number of populated tags of a part. -/
def tagCount (p : GPart) : Nat :=
  (if p.text.isSome then 1 else 0) + (if p.media.isSome then 1 else 0) +
  (if p.toolRequest.isSome then 1 else 0) + (if p.toolResponse.isSome then 1 else 0)

/-- The text tag is not truthy: absent or the empty string. -/
def TextNotTruthy (p : GPart) : Prop :=
  p.text = none ∨ p.text = some ""

/-- Claim-side description (C6) of the tool-response sub-converter: an image
block exactly when the output is a media object whose url — or the output
string itself — matches `data:<mime>;base64,<payload>`, with media-type from
the media object's explicit `contentType` when present (non-null) and
otherwise from the regex capture; in every other case a text block holding
the raw string when the output is a string, else the JSON-serialized output. -/
def specToolResponseBlock (output : JsonValue) : ContentBlockParam :=
  match output with
  | .jstr s =>
    match extractDataFromBase64Url s with
    | some cd => .imageBlock cd.2 (.jstr cd.1)
    | none => .textBlock s
  | .jobj fields =>
    match lookupField fields "url" with
    | some (.jstr url) =>
      (match extractDataFromBase64Url url with
       | some cd =>
         .imageBlock cd.2
           (match lookupField fields "contentType" with
            | some .jnull => .jstr cd.1
            | some ct => ct
            | none => .jstr cd.1)
       | none => .textBlock (stringifyJson output))
    | _ => .textBlock (stringifyJson output)
  | o => .textBlock (stringifyJson o)

/-- Claim-side property (C7): no key of the returned body holds a falsy value
or an empty list.  `metadata` and `tool_choice` hold objects, which are never
falsy, so only the remaining keys can carry such values. -/
def NoFalsyFields (b : MessageCreateParams) : Prop :=
  b.system ≠ some "" ∧ b.messages ≠ some [] ∧ b.tools ≠ some [] ∧
  b.max_tokens ≠ some 0 ∧ b.model ≠ some "" ∧ b.top_k ≠ some 0 ∧
  b.top_p ≠ some 0 ∧ b.temperature ≠ some 0 ∧ b.stop_sequences ≠ some [] ∧
  b.stream ≠ some false

/-- Outbound conversion followed by the inbound converter (C8). -/
def roundTripPart (p : GPart) : Except String GPart :=
  (toAnthropicMessageContent p).map fromAnthropicContentBlock

/-! ## Theorems -/

/-- Claim C5: the Role Mapper sends `user` to `user`, `model` to `assistant`,
`tool` to `assistant` exactly when the hint is `tool_use` and to `user`
otherwise (including an absent hint), and errors on every other role value. -/
theorem C5_role_mapper :
    (∀ hint, toAnthropicRole "user" hint = .ok .user) ∧
    (∀ hint, toAnthropicRole "model" hint = .ok .assistant) ∧
    (∀ hint, toAnthropicRole "tool" hint =
      .ok (if hint = some "tool_use" then .assistant else .user)) ∧
    (∀ role hint, role ≠ "user" → role ≠ "model" → role ≠ "tool" →
      toAnthropicRole role hint =
        .error ("role " ++ role ++ " does not map to an Anthropic role.")) := by
  refine ⟨fun _ => rfl, fun _ => rfl, fun _ => rfl, ?_⟩
  intro role hint h1 h2 h3
  simp [toAnthropicRole, h1, h2, h3]

/-- Witness for C5 at the remaining canonical role `system`. -/
theorem C5_role_mapper_witness :
    ("system" : String) ≠ "user" ∧ ("system" : String) ≠ "model" ∧
    ("system" : String) ≠ "tool" ∧
    toAnthropicRole "system" none =
      .error "role system does not map to an Anthropic role." :=
  ⟨by decide, by decide, by decide,
    C5_role_mapper.2.2.2 "system" none (by decide) (by decide) (by decide)⟩

/-- Counterexample to C4: a toolRequest part with an absent ref converts
without any error — the source's `ref!` is a compile-time assertion only —
yielding a tool_use block whose id is absent, where the claim demands an
error. -/
theorem C4_counterexample_missing_ref :
    toAnthropicMessageContent ⟨none, none, some ⟨none, "myTool", .jnull⟩, none⟩ =
      .ok (.toolUseBlock none "myTool" .jnull) := rfl

/-- Claim C4 (amended): a part whose only set tag is toolRequest converts to a
tool_use block with id equal to the request's ref, the same name, and input
equal to the structured arguments; when the ref is absent no error is raised —
the id is simply absent. -/
theorem C4_tool_use_block :
    ∀ (ref : Option String) (name : String) (input : JsonValue),
      toAnthropicMessageContent ⟨none, none, some ⟨ref, name, input⟩, none⟩ =
        .ok (.toolUseBlock ref name input) :=
  fun _ _ _ => rfl

theorem stripOptStr_ne_empty (o : Option String) : stripOptStr o ≠ some "" := by
  cases o with
  | none => simp [stripOptStr]
  | some s =>
    by_cases h : s = "" <;> simp [stripOptStr, h]

theorem stripOptInt_ne_zero (o : Option Int) : stripOptInt o ≠ some 0 := by
  cases o with
  | none => simp [stripOptInt]
  | some n =>
    by_cases h : n = 0 <;> simp [stripOptInt, h]

theorem stripOptRat_ne_zero (o : Option Rat) : stripOptRat o ≠ some 0 := by
  cases o with
  | none => simp [stripOptRat]
  | some q =>
    by_cases h : q = 0 <;> simp [stripOptRat, h]

theorem stripOptList_ne_nil (o : Option (List α)) : stripOptList o ≠ some [] := by
  cases o with
  | none => simp [stripOptList]
  | some xs =>
    cases xs <;> simp [stripOptList]

theorem stripOptBool_ne_false (o : Option Bool) : stripOptBool o ≠ some false := by
  cases o with
  | none => simp [stripOptBool]
  | some b =>
    cases b <;> simp [stripOptBool]

theorem stripBody_noFalsyFields (b : MessageCreateParams) :
    NoFalsyFields (stripBody b) :=
  ⟨stripOptStr_ne_empty _, stripOptList_ne_nil _, stripOptList_ne_nil _,
   stripOptInt_ne_zero _, stripOptStr_ne_empty _, stripOptInt_ne_zero _,
   stripOptRat_ne_zero _, stripOptRat_ne_zero _, stripOptList_ne_nil _,
   stripOptBool_ne_false _⟩

/-- Claim C7: every body returned by the Request Body Builder contains no key
whose value is falsy or an empty list. -/
theorem C7_no_falsy_fields (modelName : String) (request : GenerateRequest)
    (stream : Option Bool) (b : MessageCreateParams)
    (h : toAnthropicRequestBody modelName request stream = .ok b) :
    NoFalsyFields b := by
  unfold toAnthropicRequestBody at h
  split at h
  · exact absurd h (by simp)
  · split at h
    · exact absurd h (by simp)
    · split at h
      · exact absurd h (by simp)
      · simp only [Except.ok.injEq] at h
        exact h ▸ stripBody_noFalsyFields _

/-- Witness for C7: a concrete request through the builder, with the returned
body spelled out. -/
theorem C7_no_falsy_fields_witness :
    NoFalsyFields ⟨none, some [⟨AnthropicRole.user, [ContentBlockParam.textBlock "hi"]⟩],
      none, some 4096, some "claude-3-haiku-20240307",
      none, none, none, none, none, none, none⟩ :=
  C7_no_falsy_fields "claude-3-haiku"
    ⟨[⟨"user", [⟨some "hi", none, none, none⟩]⟩], none, none, none⟩ none _ rfl

/-- Claim C10: when the config sets maxOutputTokens to 0, the built body has
no max_tokens key: the 4096 default applies only to a nullish value and the
falsy-field stripping then removes the resulting 0. -/
theorem C10_max_tokens_zero (modelName : String) (request : GenerateRequest)
    (stream : Option Bool) (b : MessageCreateParams)
    (h : toAnthropicRequestBody modelName request stream = .ok b)
    (hmax : request.config.bind (fun c => c.maxOutputTokens) = some 0) :
    b.max_tokens = none := by
  unfold toAnthropicRequestBody at h
  split at h
  · exact absurd h (by simp)
  · split at h
    · exact absurd h (by simp)
    · split at h
      · exact absurd h (by simp)
      · simp only [Except.ok.injEq] at h
        rw [← h]
        simp [stripBody, stripOptInt, hmax]

/-- Witness for C10: a concrete request whose config sets maxOutputTokens to
0; the returned body carries no max_tokens. -/
theorem C10_max_tokens_zero_witness :
    (some (⟨none, none, some 0, none, none, none, none, none⟩ : GenerationConfig)).bind
        (fun c => c.maxOutputTokens) = some 0 ∧
    (⟨none, some [⟨AnthropicRole.user, [ContentBlockParam.textBlock "hi"]⟩],
      none, none, some "claude-3-haiku-20240307",
      none, none, none, none, none, none, none⟩ : MessageCreateParams).max_tokens = none :=
  ⟨rfl,
    C10_max_tokens_zero "claude-3-haiku"
      ⟨[⟨"user", [⟨some "hi", none, none, none⟩]⟩], none, none,
        some ⟨none, none, some 0, none, none, none, none, none⟩⟩ none _ rfl rfl⟩

theorem toolResponseContent_eq_spec (p : GPart) (tresp : ToolResponseData)
    (hp : p.toolResponse = some tresp) :
    toAnthropicToolResponseContent p = .ok (specToolResponseBlock tresp.output) := by
  obtain ⟨ref, name, output⟩ := tresp
  cases output with
  | jnull =>
    simp [toAnthropicToolResponseContent, toolResponseBase64Data, jsIsMediaObject,
      jsTypeofString, specToolResponseBlock, hp]
  | jbool b =>
    simp [toAnthropicToolResponseContent, toolResponseBase64Data, jsIsMediaObject,
      jsTypeofString, specToolResponseBlock, hp]
  | jnum n =>
    simp [toAnthropicToolResponseContent, toolResponseBase64Data, jsIsMediaObject,
      jsTypeofString, specToolResponseBlock, hp]
  | jarr xs =>
    simp [toAnthropicToolResponseContent, toolResponseBase64Data, jsIsMediaObject,
      jsTypeofString, specToolResponseBlock, hp]
  | jstr s =>
    cases h : extractDataFromBase64Url s with
    | none =>
      simp [toAnthropicToolResponseContent, toolResponseBase64Data, jsIsMediaObject,
        jsTypeofString, jsAsString, specToolResponseBlock, hp, h]
    | some cd =>
      simp [toAnthropicToolResponseContent, toolResponseBase64Data, jsIsMediaObject,
        jsTypeofString, jsAsString, jsMediaContentTypeNonNull, specToolResponseBlock, hp, h]
  | jobj fields =>
    cases hu : lookupField fields "url" with
    | none =>
      simp [toAnthropicToolResponseContent, toolResponseBase64Data, jsIsMediaObject,
        jsTypeofString, specToolResponseBlock, hp, hu]
    | some v =>
      cases v with
      | jstr url =>
        cases h : extractDataFromBase64Url url with
        | none =>
          simp [toAnthropicToolResponseContent, toolResponseBase64Data, jsIsMediaObject,
            jsMediaUrl, jsTypeofString, specToolResponseBlock, hp, hu, h]
        | some cd =>
          cases hc : lookupField fields "contentType" with
          | none =>
            simp [toAnthropicToolResponseContent, toolResponseBase64Data, jsIsMediaObject,
              jsMediaUrl, jsTypeofString, jsMediaContentTypeNonNull,
              specToolResponseBlock, hp, hu, h, hc]
          | some cv =>
            cases cv <;>
              simp [toAnthropicToolResponseContent, toolResponseBase64Data, jsIsMediaObject,
                jsMediaUrl, jsTypeofString, jsMediaContentTypeNonNull,
                specToolResponseBlock, hp, hu, h, hc]
      | jnull =>
        simp [toAnthropicToolResponseContent, toolResponseBase64Data, jsIsMediaObject,
          jsTypeofString, specToolResponseBlock, hp, hu]
      | jbool b =>
        simp [toAnthropicToolResponseContent, toolResponseBase64Data, jsIsMediaObject,
          jsTypeofString, specToolResponseBlock, hp, hu]
      | jnum n =>
        simp [toAnthropicToolResponseContent, toolResponseBase64Data, jsIsMediaObject,
          jsTypeofString, specToolResponseBlock, hp, hu]
      | jarr xs =>
        simp [toAnthropicToolResponseContent, toolResponseBase64Data, jsIsMediaObject,
          jsTypeofString, specToolResponseBlock, hp, hu]
      | jobj fs2 =>
        simp [toAnthropicToolResponseContent, toolResponseBase64Data, jsIsMediaObject,
          jsTypeofString, specToolResponseBlock, hp, hu]

/-- Claim C6: the tool-response sub-converter emits an image block exactly
when the output is a media object whose url (or the output string itself)
matches `data:<mime>;base64,<payload>`, with media-type from the explicit
contentType when present, else from the regex capture; in every other case a
text block with the raw string when the output is a string, else the
JSON-serialized output — in particular output `{foo: 1}` yields the text
block `{"foo":1}`. -/
theorem C6_tool_response_content :
    (∀ (ref : Option String) (name : String) (output : JsonValue),
      toAnthropicToolResponseContent ⟨none, none, none, some ⟨ref, name, output⟩⟩ =
        .ok (specToolResponseBlock output)) ∧
    toAnthropicToolResponseContent
        ⟨none, none, none, some ⟨some "r", "t", .jobj [("foo", .jnum 1)]⟩⟩ =
      .ok (.textBlock "\x7b\"foo\":1\x7d") :=
  ⟨fun ref name output =>
    toolResponseContent_eq_spec ⟨none, none, none, some ⟨ref, name, output⟩⟩
      ⟨ref, name, output⟩ rfl, rfl⟩

theorem toolResponseContent_total (ref : Option String) (name : String)
    (output : JsonValue) :
    ∃ b, toAnthropicMessageContent ⟨none, none, none, some ⟨ref, name, output⟩⟩ =
      .ok (.toolResultBlock ref [b]) := by
  refine ⟨specToolResponseBlock output, ?_⟩
  simp [toAnthropicMessageContent, partTextTruthy,
    toolResponseContent_eq_spec ⟨none, none, none, some ⟨ref, name, output⟩⟩
      ⟨ref, name, output⟩ rfl]

/-- Counterexample to C3: this part has exactly one tag set (media), yet the
outbound conversion throws, because the url is not a base64 data URL. -/
theorem C3_counterexample_media_url :
    tagCount ⟨none, some ⟨"https://example.com/cat.png", none⟩, none, none⟩ = 1 ∧
    toAnthropicMessageContent ⟨none, some ⟨"https://example.com/cat.png", none⟩, none, none⟩ =
      .error "Invalid genkit part media provided to toAnthropicMessageContent." :=
  ⟨rfl, rfl⟩

/-- Claim C3 (amended): for parts with exactly one tag set, the outbound
conversion returns a provider content block for every toolRequest and
toolResponse part; for a text part exactly when the text is non-empty, and
for a media part exactly when its url matches the base64 data-URL pattern —
it throws on an empty text (falsy, so no branch fires) and on a media url
that fails the pattern. -/
theorem C3_totality :
    (∀ s : String, s ≠ "" →
      ∃ b, toAnthropicMessageContent ⟨some s, none, none, none⟩ = .ok b) ∧
    (toAnthropicMessageContent ⟨some "", none, none, none⟩ =
      .error "Unsupported genkit part fields encountered for current message role.") ∧
    (∀ m : MediaData, (extractDataFromBase64Url m.url).isSome = true →
      ∃ b, toAnthropicMessageContent ⟨none, some m, none, none⟩ = .ok b) ∧
    (∀ m : MediaData, extractDataFromBase64Url m.url = none →
      toAnthropicMessageContent ⟨none, some m, none, none⟩ =
        .error "Invalid genkit part media provided to toAnthropicMessageContent.") ∧
    (∀ tr : ToolRequestData,
      ∃ b, toAnthropicMessageContent ⟨none, none, some tr, none⟩ = .ok b) ∧
    (∀ tresp : ToolResponseData,
      ∃ b, toAnthropicMessageContent ⟨none, none, none, some tresp⟩ = .ok b) := by
  refine ⟨?_, rfl, ?_, ?_, ?_, ?_⟩
  · intro s hs
    exact ⟨.textBlock s, by simp [toAnthropicMessageContent, partTextTruthy, hs]⟩
  · intro m hm
    cases he : extractDataFromBase64Url m.url with
    | none => rw [he] at hm; exact absurd hm (by simp)
    | some cd =>
      exact ⟨.imageBlock cd.2 (.jstr (m.contentType.getD cd.1)),
        by simp [toAnthropicMessageContent, partTextTruthy, he]⟩
  · intro m hm
    simp [toAnthropicMessageContent, partTextTruthy, hm]
  · intro tr
    exact ⟨.toolUseBlock tr.ref tr.name tr.input, rfl⟩
  · intro tresp
    obtain ⟨b, hb⟩ := toolResponseContent_total tresp.ref tresp.name tresp.output
    exact ⟨.toolResultBlock tresp.ref [b], hb⟩

/-- Witness for C3 at a concrete non-empty text part. -/
theorem C3_totality_witness :
    ("hi" : String) ≠ "" ∧
    ∃ b, toAnthropicMessageContent ⟨some "hi", none, none, none⟩ = .ok b :=
  ⟨by decide, C3_totality.1 "hi" (by decide)⟩

/-- Counterexample to C8: a part whose only set tag is text, with the empty
string: the outbound conversion already throws (an empty text field is falsy,
so no branch fires), so no round trip happens at all. -/
theorem C8_counterexample_empty_text :
    roundTripPart ⟨some "", none, none, none⟩ =
      .error "Unsupported genkit part fields encountered for current message role." := rfl

/-- Claim C8 (amended): for a text part with non-empty text, and for a
toolRequest part with ref present, outbound conversion followed by the
inbound converter recovers the original part exactly. -/
theorem C8_roundtrip :
    (∀ s : String, s ≠ "" →
      roundTripPart ⟨some s, none, none, none⟩ = .ok ⟨some s, none, none, none⟩) ∧
    (∀ (r name : String) (input : JsonValue),
      roundTripPart ⟨none, none, some ⟨some r, name, input⟩, none⟩ =
        .ok ⟨none, none, some ⟨some r, name, input⟩, none⟩) := by
  constructor
  · intro s hs
    simp [roundTripPart, toAnthropicMessageContent, partTextTruthy, hs,
      fromAnthropicContentBlock, Except.map]
  · intro r name input
    rfl

/-- Witness for C8 at a concrete text part. -/
theorem C8_roundtrip_witness :
    ("hello" : String) ≠ "" ∧
    roundTripPart ⟨some "hello", none, none, none⟩ = .ok ⟨some "hello", none, none, none⟩ :=
  ⟨by decide, C8_roundtrip.1 "hello" (by decide)⟩

/-- Counterexample to C9: a part with two tags set (media and toolRequest)
raises an error instead of silently converting: the media tag has priority
and its url does not match the base64 data-URL pattern. -/
theorem C9_counterexample_media_error :
    tagCount ⟨none, some ⟨"https://example.com/a.png", none⟩,
      some ⟨some "r1", "t", .jnull⟩, none⟩ = 2 ∧
    toAnthropicMessageContent ⟨none, some ⟨"https://example.com/a.png", none⟩,
        some ⟨some "r1", "t", .jnull⟩, none⟩ =
      .error "Invalid genkit part media provided to toAnthropicMessageContent." :=
  ⟨rfl, rfl⟩

/-- Claim C9 (amended): multi-tag parts resolve by the fixed priority order
text, media, toolRequest, toolResponse — only the highest-priority truthy tag
is converted and the rest are ignored (an empty text does not count as
populated); no error arises from the multiplicity itself, but the selected
tag's own conversion may still throw (a media url failing the data-URL
pattern). -/
theorem C9_priority :
    (∀ (p : GPart) (s : String), p.text = some s → s ≠ "" →
      toAnthropicMessageContent p = .ok (.textBlock s)) ∧
    (∀ (p : GPart) (m : MediaData), TextNotTruthy p → p.media = some m →
      toAnthropicMessageContent p =
        (match extractDataFromBase64Url m.url with
         | some cd => .ok (.imageBlock cd.2 (.jstr (m.contentType.getD cd.1)))
         | none => .error "Invalid genkit part media provided to toAnthropicMessageContent.")) ∧
    (∀ (p : GPart) (tr : ToolRequestData), TextNotTruthy p → p.media = none →
      p.toolRequest = some tr →
      toAnthropicMessageContent p = .ok (.toolUseBlock tr.ref tr.name tr.input)) ∧
    (∀ (p : GPart) (tresp : ToolResponseData), TextNotTruthy p → p.media = none →
      p.toolRequest = none → p.toolResponse = some tresp →
      toAnthropicMessageContent p =
        .ok (.toolResultBlock tresp.ref [specToolResponseBlock tresp.output])) := by
  have hnt : ∀ p : GPart, TextNotTruthy p → partTextTruthy p = none := by
    intro p hp
    rcases hp with h | h <;> simp [partTextTruthy, h]
  refine ⟨?_, ?_, ?_, ?_⟩
  · intro p s ht hs
    simp [toAnthropicMessageContent, partTextTruthy, ht, hs]
  · intro p m hp hm
    cases he : extractDataFromBase64Url m.url <;>
      simp [toAnthropicMessageContent, hnt p hp, hm, he]
  · intro p tr hp hm htr
    simp [toAnthropicMessageContent, hnt p hp, hm, htr]
  · intro p tresp hp hm htr hz
    simp [toAnthropicMessageContent, hnt p hp, hm, htr, hz,
      toolResponseContent_eq_spec p tresp hz]

/-- Witness for C9: a part with both text and media set converts to the text
block, the media tag being ignored. -/
theorem C9_priority_witness :
    (⟨some "hi", some ⟨"x", none⟩, none, none⟩ : GPart).text = some "hi" ∧
    ("hi" : String) ≠ "" ∧
    toAnthropicMessageContent ⟨some "hi", some ⟨"x", none⟩, none, none⟩ =
      .ok (.textBlock "hi") :=
  ⟨rfl, by decide, C9_priority.1 ⟨some "hi", some ⟨"x", none⟩, none, none⟩ "hi" rfl (by decide)⟩

/-- Counterexample to C2: a `tool` message whose converted content holds a
tool_result block followed by a tool_use block.  The content does contain a
tool_use block, yet the emitted role is `user`, because the role hint is
taken from the first tool_use-or-tool_result block found — here tool_result. -/
theorem C2_counterexample_result_before_use :
    convertMessage ⟨"tool", [⟨none, none, none, some ⟨some "id1", "t", .jstr "ok"⟩⟩,
                             ⟨none, none, some ⟨some "id2", "t", .jnull⟩, none⟩]⟩ =
      .ok ⟨AnthropicRole.user,
           [ContentBlockParam.toolResultBlock (some "id1") [ContentBlockParam.textBlock "ok"],
            ContentBlockParam.toolUseBlock (some "id2") "t" .jnull]⟩ ∧
    ([ContentBlockParam.toolResultBlock (some "id1") [ContentBlockParam.textBlock "ok"],
      ContentBlockParam.toolUseBlock (some "id2") "t" .jnull].any
        (fun c => blockTypeOf c == "tool_use")) = true :=
  ⟨rfl, rfl⟩

/-- Claim C2 (amended): for a canonical message with role `tool`, the emitted
provider role is `assistant` exactly when the first tool_use-or-tool_result
block of the converted content is a tool_use block, and `user` otherwise. -/
theorem C2_tool_role (m : MessageData) (msg : MessageParam)
    (hrole : m.role = "tool") (h : convertMessage m = .ok msg) :
    msg.role = .assistant ↔
      ∃ b, msg.content.find?
          (fun c => blockTypeOf c == "tool_use" || blockTypeOf c == "tool_result") = some b ∧
        blockTypeOf b = "tool_use" := by
  cases hmap : mapExcept toAnthropicMessageContent m.content with
  | error e =>
    unfold convertMessage at h
    rw [hmap] at h
    exact absurd h (by simp)
  | ok content =>
    have hred : convertMessage m =
        .ok ⟨(if findToolMessageType content = some "tool_use" then AnthropicRole.assistant
              else AnthropicRole.user), content⟩ := by
      unfold convertMessage
      rw [hmap, hrole]
      rfl
    rw [hred] at h
    injection h with h2
    subst h2
    cases hf : content.find?
        (fun c => blockTypeOf c == "tool_use" || blockTypeOf c == "tool_result") with
    | none => simp [findToolMessageType, hf]
    | some b =>
      by_cases hb : blockTypeOf b = "tool_use" <;>
        simp [findToolMessageType, hf, hb]

/-- Witness for C2: a `tool` message with a single toolRequest part gets the
assistant role, matching its first (and only) tool block being tool_use. -/
theorem C2_tool_role_witness :
    (⟨"tool", [⟨none, none, some ⟨some "id2", "t", .jnull⟩, none⟩]⟩ : MessageData).role =
      "tool" ∧
    ((⟨AnthropicRole.assistant, [ContentBlockParam.toolUseBlock (some "id2") "t" .jnull]⟩ :
        MessageParam).role = .assistant ↔
      ∃ b, ([ContentBlockParam.toolUseBlock (some "id2") "t" .jnull].find?
          (fun c => blockTypeOf c == "tool_use" || blockTypeOf c == "tool_result") = some b ∧
        blockTypeOf b = "tool_use")) :=
  ⟨rfl, C2_tool_role ⟨"tool", [⟨none, none, some ⟨some "id2", "t", .jnull⟩, none⟩]⟩
    ⟨AnthropicRole.assistant, [ContentBlockParam.toolUseBlock (some "id2") "t" .jnull]⟩
    rfl rfl⟩

/-- Counterexample to C1: the first message's role is `system`, its content a
single text part holding the empty string.  The claim demands extraction and
exclusion; the code instead finds `system = ''` falsy, keeps the message in
the iteration, and throws while converting its (falsy) empty-text part. -/
theorem C1_counterexample_empty_system_text :
    toAnthropicMessages [⟨"system", [⟨some "", none, none, none⟩]⟩,
                         ⟨"user", [⟨some "hi", none, none, none⟩]⟩] =
      .error "Unsupported genkit part fields encountered for current message role." := rfl

/-- Claim C1 (amended): the first message is extracted as the separate system
string and excluded from the provider message list if and only if its role is
`system` and its first part's text is present and non-empty (a falsy system
string leaves the message in the iteration); the concrete example of the
claim holds: system `'S'` plus one provider user message. -/
theorem C1_system_extraction :
    (∀ (m0 : MessageData) (rest : List MessageData),
      toAnthropicMessages (m0 :: rest) =
        if m0.role = "system" ∧ strTruthy (systemExtract m0) then
          (mapExcept convertMessage rest).map (fun msgs => (systemExtract m0, msgs))
        else
          (mapExcept convertMessage (m0 :: rest)).map
            (fun msgs => ((if m0.role = "system" then systemExtract m0 else none), msgs))) ∧
    toAnthropicMessages
        [⟨"system", [⟨some "S", none, none, none⟩]⟩,
         ⟨"user", [⟨some "hi", none, none, none⟩]⟩] =
      .ok (some "S", [⟨AnthropicRole.user, [ContentBlockParam.textBlock "hi"]⟩]) := by
  constructor
  · intro m0 rest
    unfold toAnthropicMessages
    by_cases hr : m0.role = "system"
    · by_cases ht : strTruthy (systemExtract m0)
      · cases hm : mapExcept convertMessage rest <;>
          simp [hr, ht, hm, Except.map]
      · cases hm : mapExcept convertMessage (m0 :: rest) <;>
          simp [hr, ht, hm, Except.map]
    · cases hm : mapExcept convertMessage (m0 :: rest) <;>
        simp [hr, strTruthy, hm, Except.map]
  · rfl

end Claude
